import Mathlib

set_option maxHeartbeats 1000000
set_option maxRecDepth 10000

/-!
Shallow embedding of the CHIP-8 interpreter core from
`src/chip8-c++/core/core.hpp` and `src/chip8-c++/core/core.cpp`.

Machine integers are modelled as `Nat` with explicit truncation (`% 256`,
`&&& 0x0fff`, ...) exactly where the C++ performs an implicit conversion to a
narrower unsigned type (function parameters typed `uint8_t` / `uint16_t`,
assignments to such fields).  A signed intermediate (`vx - vy` promoted to
`int` and then converted to `uint32_t`) is modelled through `Int` with the
euclidean remainder by `2 ^ 32`.

`assert` failures that are reachable from the modelled entry points (memory
bounds, stack bounds, oversized ROM) and the `invalid_instr` diagnostic (which
prints and then asserts false) are modelled as `Except.error`; the asserts of
`Framebuffer::pixel_status` / `Framebuffer::set_pixel` and of
`Core::reg_read` / `Core::reg_write` hold at every call site inside the core
(every index reaching them was masked to its legal range first), so those
operations are modelled as total functions.

`std::rand()` of the `CXNN` instruction is modelled by passing the value the
call returns as an explicit `rand_val` argument to the instruction step.
-/

/-- A fatal condition of the core: a failed `assert` (stack overflow or
underflow, out-of-bounds memory access, oversized ROM, the `unreachable_code`
macro) or the `invalid_instr` diagnostic, which reports `pc - 2` (computed in
`int`) together with the raw instruction word and then asserts false. -/
inductive StepError where
  | assertViolation : StepError
  | invalidInstr : Int → Nat → StepError
  deriving DecidableEq, Repr

/-- Decidable equality of `Except` results, used to evaluate the embedding
on concrete inputs. -/
instance instDecEqExcept {ε α : Type} [DecidableEq ε] [DecidableEq α] :
    DecidableEq (Except ε α)
  | .ok a, .ok b =>
      if h : a = b then .isTrue (h ▸ rfl)
      else .isFalse (fun hh => h (Except.ok.inj hh))
  | .ok _, .error _ => .isFalse (fun hh => Except.noConfusion hh)
  | .error _, .ok _ => .isFalse (fun hh => Except.noConfusion hh)
  | .error e, .error f =>
      if h : e = f then .isTrue (h ▸ rfl)
      else .isFalse (fun hh => h (Except.error.inj hh))

/-- `struct Framebuffer`: wraps the `60 × 60` array of `uint32_t` pixel
values (`pixel_array[y * FB_WIDTH + x]`). -/
structure Framebuffer where
  pixel_array : List Nat
  deriving DecidableEq, Repr

namespace Framebuffer

/-- `PIXEL_OFF = 0`. -/
def PIXEL_OFF : Nat := 0

/-- `PIXEL_ON = UINT32_MAX`. -/
def PIXEL_ON : Nat := 4294967295

/-- `FB_WIDTH = 60`. -/
def FB_WIDTH : Nat := 60

/-- `FB_HEIGHT = 60`. -/
def FB_HEIGHT : Nat := 60

/-- `Framebuffer::width`. -/
def width (_ : Framebuffer) : Nat := FB_WIDTH

/-- `Framebuffer::height`. -/
def height (_ : Framebuffer) : Nat := FB_HEIGHT

/-- `Framebuffer::pixel_status`: `pixel_array[y * FB_WIDTH + x] == PIXEL_ON`.
The assert `x < FB_WIDTH && y < FB_HEIGHT` holds at every call site of the
core (coordinates are wrapped `% 60` or are nibbles `< 16` before the call). -/
def pixel_status (fb : Framebuffer) (x y : Nat) : Bool :=
  fb.pixel_array.getD (y * FB_WIDTH + x) 0 == PIXEL_ON

/-- `Framebuffer::set_pixel`: `pixel_array[y * FB_WIDTH + x] = status ?
PIXEL_ON : PIXEL_OFF`.  Same remark about the bounds assert as for
`pixel_status`. -/
def set_pixel (fb : Framebuffer) (x y : Nat) (status : Bool) : Framebuffer :=
  { fb with pixel_array :=
      fb.pixel_array.set (y * FB_WIDTH + x) (if status then PIXEL_ON else PIXEL_OFF) }

/-- `Framebuffer::clear`: `pixel_array = {PIXEL_OFF}` aggregate-assigns the
first element explicitly and value-initialises (zeroes) the rest, so every
element becomes `PIXEL_OFF`. -/
def clear (_ : Framebuffer) : Framebuffer :=
  { pixel_array := List.replicate (FB_HEIGHT * FB_WIDTH) PIXEL_OFF }

end Framebuffer

/-- `struct Hexpad`: a 16-bit pressed-key bitmap (`uint16_t hexpad_bitmap`). -/
structure Hexpad where
  hexpad_bitmap : Nat
  deriving DecidableEq, Repr

namespace Hexpad

/-- `Hexpad::bitmap`. -/
def bitmap (h : Hexpad) : Nat := h.hexpad_bitmap

/-- `Hexpad::is_key_pressed`: `(hexpad_bitmap & (1 << index)) != 0`; the
assert `index < 16` holds at the single call site (`vx & 0xf`). -/
def is_key_pressed (h : Hexpad) (index : Nat) : Bool :=
  (h.hexpad_bitmap &&& (1 <<< index)) != 0

/-- `Hexpad::update_hexpad`: replaces the bitmap. -/
def update_hexpad (_ : Hexpad) (bitmap : Nat) : Hexpad :=
  { hexpad_bitmap := bitmap }

end Hexpad

/-- `struct Core`: the CHIP-8 core state, field for field. -/
structure Core where
  /-- the 16 `uint8_t` registers `v`. -/
  v : List Nat
  /-- the `uint16_t` pc register (kept in 12 bits by `pc_set`). -/
  pc : Nat
  /-- the `uint16_t` i register (kept in 12 bits by `i_set`). -/
  i : Nat
  /-- the 4096 bytes of `main_memory`. -/
  main_memory : List Nat
  /-- the stack pointer. -/
  sp : Nat
  /-- the 16-entry `uint16_t` stack. -/
  stack : List Nat
  /-- the 8-bit sound timer. -/
  timer_sound : Nat
  /-- the 8-bit delay timer. -/
  timer_delay : Nat
  /-- the framebuffer. -/
  fb : Framebuffer
  /-- the hexpad latch. -/
  hexpad : Hexpad
  /-- whether the core is waiting for a keypress. -/
  is_waiting_for_keypress : Bool
  /-- which register receives the keypress index on wait resolution. -/
  keypress_index_register : Nat
  deriving DecidableEq, Repr

namespace Core

/-- `STACK_SIZE = 16`. -/
def STACK_SIZE : Nat := 16

/-- `FONT_DATA`: the 80-byte font table. -/
def FONT_DATA : List Nat :=
  [0xF0, 0x90, 0x90, 0x90, 0xF0,
   0x20, 0x60, 0x20, 0x20, 0x70,
   0xF0, 0x10, 0xF0, 0x80, 0xF0,
   0xF0, 0x10, 0xF0, 0x10, 0xF0,
   0x90, 0x90, 0xF0, 0x10, 0x10,
   0xF0, 0x80, 0xF0, 0x10, 0xF0,
   0xF0, 0x80, 0xF0, 0x90, 0xF0,
   0xF0, 0x10, 0x20, 0x40, 0x40,
   0xF0, 0x90, 0xF0, 0x90, 0xF0,
   0xF0, 0x90, 0xF0, 0x10, 0xF0,
   0xF0, 0x90, 0xF0, 0x90, 0x90,
   0xE0, 0x90, 0xE0, 0x90, 0xE0,
   0xF0, 0x80, 0x80, 0x80, 0xF0,
   0xE0, 0x90, 0x90, 0x90, 0xE0,
   0xF0, 0x80, 0xF0, 0x80, 0xF0,
   0xF0, 0x80, 0xF0, 0x80, 0x80]

/-- The zero-initialised `Core`.  `Core::create` starts from `Core()`, which
value-initialises (zero-initialises) every member, since the defaulted default
constructor is not user-provided. -/
def init : Core :=
  { v := List.replicate 16 0
    pc := 0
    i := 0
    main_memory := List.replicate 4096 0
    sp := 0
    stack := List.replicate 16 0
    timer_sound := 0
    timer_delay := 0
    fb := { pixel_array := List.replicate (Framebuffer.FB_HEIGHT * Framebuffer.FB_WIDTH) 0 }
    hexpad := { hexpad_bitmap := 0 }
    is_waiting_for_keypress := false
    keypress_index_register := 0 }

/-- `Core::reg_read`: `v[index]`; the assert `index < 0x10` holds at every
call site (indices are nibbles or run over `0..x`). -/
def reg_read (c : Core) (index : Nat) : Nat :=
  c.v.getD index 0

/-- `Core::reg_write`: `v[index] = value`, the `uint8_t` parameter conversion
truncating the argument mod 256; the assert `index < 16` holds at every call
site. -/
def reg_write (c : Core) (index value : Nat) : Core :=
  { c with v := c.v.set index (value % 256) }

/-- `Core::vf_get`: `v[15]` converted to `bool`. -/
def vf_get (c : Core) : Bool :=
  c.v.getD 15 0 != 0

/-- `Core::vf_set`: `v[15] = value` with `bool → uint8_t` giving 1 or 0. -/
def vf_set (c : Core) (value : Bool) : Core :=
  { c with v := c.v.set 15 (if value then 1 else 0) }

/-- `Core::i_get`. -/
def i_get (c : Core) : Nat := c.i

/-- `Core::i_set`: `i = value & 0x0fff` (dropping to the low 12 bits also
subsumes the `uint16_t` parameter conversion). -/
def i_set (c : Core) (value : Nat) : Core :=
  { c with i := value &&& 0x0fff }

/-- `Core::pc_get`. -/
def pc_get (c : Core) : Nat := c.pc

/-- `Core::pc_set`: `pc = value & 0x0fff` (dropping to the low 12 bits also
subsumes the `uint16_t` parameter conversion). -/
def pc_set (c : Core) (value : Nat) : Core :=
  { c with pc := value &&& 0x0fff }

/-- `Core::mem_read`: `main_memory[address]` with the assert
`address < 4096` modelled as an error. -/
def mem_read (c : Core) (address : Nat) : Except StepError Nat :=
  if address < 4096 then .ok (c.main_memory.getD address 0)
  else .error .assertViolation

/-- `Core::mem_write`: `main_memory[address] = value` with the assert
`address < 4096` modelled as an error and the `uint8_t` parameter conversion
truncating the value mod 256. -/
def mem_write (c : Core) (address value : Nat) : Except StepError Core :=
  if address < 4096 then
    .ok { c with main_memory := c.main_memory.set address (value % 256) }
  else .error .assertViolation

/-- `Core::fetch`: saves `pc`, sets `pc + 1`, reads the byte at the saved
`pc`. -/
def fetch (c : Core) : Except StepError (Core × Nat) := do
  let pc := c.pc_get
  let c := c.pc_set (pc + 1)
  let b ← c.mem_read pc
  .ok (c, b)

/-- `Core::skip_instr`: `pc_set(pc_get() + 2)`. -/
def skip_instr (c : Core) : Core :=
  c.pc_set (c.pc_get + 2)

/-- `Core::stack_push`: `assert(sp < STACK_SIZE); stack[sp++] = pc`. -/
def stack_push (c : Core) : Except StepError Core :=
  if c.sp < STACK_SIZE then
    .ok { c with stack := c.stack.set c.sp c.pc, sp := c.sp + 1 }
  else .error .assertViolation

/-- `Core::stack_pop`: `assert(sp > 0); stack[--sp] = this->pc` — note the
source stores the current `pc` into the popped slot and never assigns `pc`. -/
def stack_pop (c : Core) : Except StepError Core :=
  if c.sp > 0 then
    .ok { c with stack := c.stack.set (c.sp - 1) c.pc, sp := c.sp - 1 }
  else .error .assertViolation

/-- `Core::tick_timers`. -/
def tick_timers (c : Core) : Core :=
  { c with
    timer_delay := if c.timer_delay > 0 then c.timer_delay - 1 else c.timer_delay
    timer_sound := if c.timer_sound > 0 then c.timer_sound - 1 else c.timer_sound }

/-- The inner `for (w = 0; w < n; ++w)` loop of the `DXYN` case, one row
`row` at row offset `h`, threading the framebuffer and the `collision`
accumulator.  Note the source sets pixel `(x, y)` — the raw register-index
nibbles — unconditionally to `true`, and compares `old_pixel != new_pixel`
for the collision accumulator. -/
def dxyn_row (row vx vy x y h n : Nat) (acc : Core × Bool) : Core × Bool :=
  (List.range n).foldl
    (fun acc2 w =>
      let xp := (vx + w) % acc2.1.fb.width
      let yp := (vy + h) % acc2.1.fb.height
      let new_pixel := (row &&& (1 <<< w)) != 0
      let old_pixel := acc2.1.fb.pixel_status xp yp
      let collision := acc2.2 || (old_pixel != new_pixel)
      ({ acc2.1 with fb := acc2.1.fb.set_pixel x y true }, collision))
    acc

/-- The outer `for (h = 0; h < n; ++h)` loop of the `DXYN` case: reads
`row = mem_read(i + h)` and runs the inner loop. -/
def dxyn_loop (i vx vy x y n : Nat) (c : Core) : Except StepError (Core × Bool) :=
  (List.range n).foldlM
    (fun acc h => do
      let row ← acc.1.mem_read (i + h)
      .ok (dxyn_row row vx vy x y h n acc))
    (c, false)

/-- The decode-and-execute part of `Core::run_for_instruction`, acting on
the post-fetch state `c` given the combined instruction word.  The local
`const` decode fields (`nnn`, `nn`, `n`, `x`, `y`, `vx`, `vy`, `v0`, `i`,
`pc`, `key_pressed`, `in000`, `i000n`, `i00nn`) are read once from the
post-fetch state exactly as in the source; the `switch` chains are rendered
as `if` chains in dispatch order. -/
def execute (c : Core) (instruction rand_val : Nat) : Except StepError Core :=
  let nnn := instruction &&& 0x0fff
  let nn := instruction &&& 0x00ff
  let n := instruction &&& 0x000f
  let x := (instruction >>> 8) &&& 0xf
  let y := (instruction >>> 4) &&& 0xf
  let vx := c.reg_read x
  let vy := c.reg_read y
  let v0 := c.reg_read 0
  let i := c.i_get
  let pc := c.pc_get
  let key_pressed := c.hexpad.is_key_pressed (vx &&& 0xf)
  let in000 := instruction >>> 12
  let i000n := instruction &&& 0x000f
  let i00nn := instruction &&& 0x00ff
  if instruction = 0x00e0 then
    .ok { c with fb := c.fb.clear }
  else if instruction = 0x00ee then
    c.stack_pop
  else if in000 = 0 then
    .error (.invalidInstr ((pc : Int) - 2) instruction)
  else if in000 = 1 then
    .ok (c.pc_set nnn)
  else if in000 = 2 then do
    let c ← c.stack_push
    .ok (c.pc_set nnn)
  else if in000 = 3 then
    .ok (if vx = nn then c.skip_instr else c)
  else if in000 = 4 then
    .ok (if vx ≠ nn then c.skip_instr else c)
  else if in000 = 5 then
    .ok (if vx = vy then c.skip_instr else c)
  else if in000 = 6 then
    .ok (c.reg_write x nn)
  else if in000 = 7 then
    .ok (c.reg_write x (vx + nn))
  else if in000 = 8 then
    if i000n = 0 then
      .ok (c.reg_write x vy)
    else if i000n = 1 then
      .ok (c.reg_write x (vx ||| vy))
    else if i000n = 2 then
      .ok (c.reg_write x (vx &&& vy))
    else if i000n = 3 then
      .ok (c.reg_write x (vx ^^^ vy))
    else if i000n = 4 then
      let res := vx + vy
      let carry := decide (res > 255)
      .ok ((c.reg_write x res).vf_set carry)
    else if i000n = 5 then
      let res : Nat := (((vx : Int) - (vy : Int)) % (2 ^ 32)).toNat
      let no_borrow := decide (res < 0)
      .ok ((c.reg_write x res).vf_set no_borrow)
    else if i000n = 6 then
      let lsb := decide (vx &&& 1 ≠ 0)
      .ok ((c.reg_write x (vx >>> 1)).vf_set lsb)
    else if i000n = 7 then
      let res : Nat := (((vy : Int) - (vx : Int)) % (2 ^ 32)).toNat
      let no_borrow := decide (res < 0)
      .ok ((c.reg_write x res).vf_set no_borrow)
    else if i000n = 0xe then
      let msb := decide (vx >>> 7 ≠ 0)
      .ok ((c.reg_write x (vx <<< 1)).vf_set msb)
    else
      .error (.invalidInstr ((pc : Int) - 2) instruction)
  else if in000 = 9 then
    .ok (if vx ≠ vy then c.skip_instr else c)
  else if in000 = 0xa then
    .ok (c.i_set nnn)
  else if in000 = 0xb then
    .ok (c.pc_set (v0 + nnn))
  else if in000 = 0xc then
    .ok (c.reg_write x (rand_val &&& nn))
  else if in000 = 0xd then do
    let r ← dxyn_loop i vx vy x y n c
    .ok (r.1.vf_set r.2)
  else if in000 = 0xe then
    if i00nn = 0x9e then
      .ok (if key_pressed then c.skip_instr else c)
    else if i00nn = 0xa1 then
      .ok (if !key_pressed then c.skip_instr else c)
    else
      .error (.invalidInstr ((pc : Int) - 2) instruction)
  else if in000 = 0xf then
    if i00nn = 0x07 then
      .ok (c.reg_write x c.timer_delay)
    else if i00nn = 0x0a then
      .ok { c with is_waiting_for_keypress := true, keypress_index_register := x }
    else if i00nn = 0x15 then
      .ok { c with timer_delay := vx }
    else if i00nn = 0x18 then
      .ok { c with timer_sound := vx }
    else if i00nn = 0x1e then
      .ok (c.i_set (i + vx))
    else if i00nn = 0x29 then
      .ok (c.i_set (vx * 5))
    else if i00nn = 0x33 then do
      let d0 := vx % 10
      let d1 := (vx / 10) % 10
      let d2 := (vx / 100) % 10
      let c ← c.mem_write i d2
      let c ← c.mem_write (i + 1) d1
      let c ← c.mem_write (i + 2) d0
      .ok c
    else if i00nn = 0x55 then
      (List.range (x + 1)).foldlM (fun c2 j => c2.mem_write (i + j) (c2.reg_read j)) c
    else if i00nn = 0x65 then
      (List.range (x + 1)).foldlM
        (fun c2 j => do
          let b ← c2.mem_read (i + j)
          .ok (c2.reg_write j b))
        c
    else
      .error (.invalidInstr ((pc : Int) - 2) instruction)
  else
    .error .assertViolation

/-- `Core::run_for_instruction`: no-op while waiting for a keypress;
otherwise fetch the two instruction bytes (each fetch advancing `pc`),
combine them big-endian and execute.  `rand_val` is the value `std::rand()`
returns if the instruction is `CXNN`. -/
def run_for_instruction (c : Core) (rand_val : Nat) : Except StepError Core :=
  if c.is_waiting_for_keypress then
    .ok c
  else do
    let (c, instruction_hi) ← c.fetch
    let (c, instruction_lo) ← c.fetch
    let instruction := (instruction_hi <<< 8) ||| instruction_lo
    c.execute instruction rand_val

/-- `Core::run_for_instructions`: runs `run_for_instruction` once per element
of `rands` (the list supplies the `std::rand()` value of each iteration, so
`rands.length` plays the role of the `instructions` count). -/
def run_for_instructions (c : Core) (rands : List Nat) : Except StepError Core :=
  rands.foldlM (fun c r => c.run_for_instruction r) c

/-- `Core::update_hexpad_bitmap`.  `std::log2(diff)` on a positive integer,
truncated by the conversion of the `double` result to the integer register
value, yields the index of the highest set bit of `diff`, i.e. `Nat.log2
diff` (for `diff < 2 ^ 16` the true base-2 logarithm is far enough from the
neighbouring integers that the floating-point evaluation cannot cross them). -/
def update_hexpad_bitmap (c : Core) (bitmap : Nat) : Core :=
  let old_bitmap := c.hexpad.bitmap
  let diff := (bitmap ^^^ old_bitmap) &&& bitmap
  if c.is_waiting_for_keypress && diff != 0 then
    let c := { c with is_waiting_for_keypress := false }
    let log2 := Nat.log2 diff
    let c := c.reg_write c.keypress_index_register log2
    { c with hexpad := c.hexpad.update_hexpad bitmap }
  else
    { c with hexpad := c.hexpad.update_hexpad bitmap }

/-- `Core::update_hexpad`: forms the bitmap from the 16 key booleans
(`hexpad[0] | hexpad[1] << 1 | ...`) and calls `update_hexpad_bitmap`. -/
def update_hexpad (c : Core) (hexpad : List Bool) : Core :=
  let bit := fun (k : Nat) => if hexpad.getD k false then (1 : Nat) else 0
  let bitmap := bit 0 ||| (bit 1 <<< 1) ||| (bit 2 <<< 2) ||| (bit 3 <<< 3)
    ||| (bit 4 <<< 4) ||| (bit 5 <<< 5) ||| (bit 6 <<< 6) ||| (bit 7 <<< 7)
    ||| (bit 8 <<< 8) ||| (bit 9 <<< 9) ||| (bit 10 <<< 10) ||| (bit 11 <<< 11)
    ||| (bit 12 <<< 12) ||| (bit 13 <<< 13) ||| (bit 14 <<< 14) ||| (bit 15 <<< 15)
  c.update_hexpad_bitmap bitmap

/-- `Core::create`: zero-initialised core, ROM-size check (`assert` on
overflow), ROM copied to `[512, 512 + rom_length)`, font copied to
`[0, 80)`, `pc = 0x200`. -/
def create (rom : List Nat) : Except StepError Core := do
  let core := init
  if rom.length > 4096 - 512 then
    .error .assertViolation
  else do
    let core ← (List.range rom.length).foldlM
      (fun c j => c.mem_write (j + 512) (rom.getD j 0)) core
    let core ← (List.range FONT_DATA.length).foldlM
      (fun c j => c.mem_write j (FONT_DATA.getD j 0)) core
    .ok { core with pc := 0x200 }

/-- `Core::run_for_instructions_then_tick_timers`. -/
def run_for_instructions_then_tick_timers (c : Core) (rands : List Nat) :
    Except StepError Core := do
  let c ← c.run_for_instructions rands
  .ok c.tick_timers

end Core

/-- One call of the external driver into the core: an instruction step (with
the `std::rand()` oracle value), a timer tick, or a keypad update carrying
the new `uint16_t` bitmap. -/
inductive DriverOp where
  | step : Nat → DriverOp
  | tick : DriverOp
  | keypad : Nat → DriverOp
  deriving DecidableEq, Repr

/-- Applies one driver call to the core. -/
def applyOp (c : Core) : DriverOp → Except StepError Core
  | .step r => c.run_for_instruction r
  | .tick => .ok c.tick_timers
  | .keypad b => .ok (c.update_hexpad_bitmap (b % 65536))

/-- Applies a sequence of driver calls to the core. -/
def runOps (c : Core) (ops : List DriverOp) : Except StepError Core :=
  ops.foldlM applyOp c

/-- Modelled from the spec (§4.1 decode): the set of instruction words that
match a known opcode pattern.  Clear-screen and return match on the full
word; all other families dispatch on the top nibble, with secondary dispatch
on the low nibble for the arithmetic/shift group (top nibble 8) and on the
low byte for the key-test group (top nibble E) and the misc group (top
nibble F). -/
def known_opcode (w : Nat) : Bool :=
  let top := w >>> 12
  w == 0x00e0 || w == 0x00ee ||
  (decide (1 ≤ top) && decide (top ≤ 7)) ||
  (top == 8 && (w &&& 0xf ≤ 7 || w &&& 0xf == 0xe)) ||
  top == 9 || top == 0xa || top == 0xb || top == 0xc || top == 0xd ||
  (top == 0xe && (w &&& 0xff == 0x9e || w &&& 0xff == 0xa1)) ||
  (top == 0xf && (w &&& 0xff == 0x07 || w &&& 0xff == 0x0a || w &&& 0xff == 0x15 ||
    w &&& 0xff == 0x18 || w &&& 0xff == 0x1e || w &&& 0xff == 0x29 ||
    w &&& 0xff == 0x33 || w &&& 0xff == 0x55 || w &&& 0xff == 0x65))

/-! ### General helper lemmas -/

theorem and_0xfff_eq_mod (a : Nat) : a &&& 0x0fff = a % 4096 := by
  have h := Nat.and_pow_two_sub_one_eq_mod a 12
  norm_num at h
  exact h

theorem and_0xfff_lt (a : Nat) : a &&& 0x0fff < 4096 := by
  rw [and_0xfff_eq_mod]
  omega

theorem bind_ok {α β : Type} {e : Except StepError α} {f : α → Except StepError β} {b : β}
    (h : (e >>= f) = Except.ok b) : ∃ a, e = Except.ok a ∧ f a = Except.ok b := by
  cases e with
  | ok a => exact ⟨a, rfl, h⟩
  | error ε => simp [Bind.bind, Except.bind] at h

theorem foldlM_except_inv {α β : Type} {P : α → Prop} {f : α → β → Except StepError α}
    (hf : ∀ a b a', P a → f a b = Except.ok a' → P a') :
    ∀ (l : List β) (a a' : α), P a → List.foldlM f a l = Except.ok a' → P a'
  | [], a, a', ha, h => by
      simp only [List.foldlM_nil] at h
      cases h
      exact ha
  | b :: l, a, a', ha, h => by
      simp only [List.foldlM_cons] at h
      obtain ⟨a1, h1, h2⟩ := bind_ok h
      exact foldlM_except_inv hf l a1 a' (hf a b a1 ha h1) h2

theorem foldl_inv {α β : Type} {P : α → Prop} {f : α → β → α}
    (hf : ∀ a b, P a → P (f a b)) :
    ∀ (l : List β) (a : α), P a → P (List.foldl f a l)
  | [], a, ha => ha
  | b :: l, a, ha => foldl_inv hf l (f a b) (hf a b ha)

/-! ### Frame lemmas for the state-changing primitives -/

theorem Core.mem_write_frame {c c' : Core} {a v : Nat} (h : c.mem_write a v = .ok c') :
    c'.v = c.v ∧ c'.pc = c.pc ∧ c'.i = c.i ∧ c'.sp = c.sp ∧ c'.stack = c.stack ∧
    c'.timer_sound = c.timer_sound ∧ c'.timer_delay = c.timer_delay ∧ c'.fb = c.fb ∧
    c'.hexpad = c.hexpad ∧ c'.is_waiting_for_keypress = c.is_waiting_for_keypress ∧
    c'.keypress_index_register = c.keypress_index_register := by
  unfold Core.mem_write at h
  split at h
  · cases h
    repeat first | constructor | rfl
  · cases h

theorem Core.stack_push_frame {c c' : Core} (h : c.stack_push = .ok c') :
    c'.pc = c.pc ∧ c'.i = c.i ∧ c'.v = c.v ∧ c'.main_memory = c.main_memory ∧
    c'.fb = c.fb := by
  unfold Core.stack_push at h
  split at h
  · cases h
    repeat first | constructor | rfl
  · cases h

theorem Core.stack_pop_frame {c c' : Core} (h : c.stack_pop = .ok c') :
    c'.pc = c.pc ∧ c'.i = c.i ∧ c'.v = c.v ∧ c'.main_memory = c.main_memory ∧
    c'.fb = c.fb := by
  unfold Core.stack_pop at h
  split at h
  · cases h
    repeat first | constructor | rfl
  · cases h

theorem Core.fetch_fst {c : Core} {p : Core × Nat} (h : c.fetch = .ok p) :
    p.1 = c.pc_set (c.pc + 1) := by
  unfold Core.fetch at h
  obtain ⟨b, h1, h2⟩ := bind_ok h
  cases h2
  rfl

/-! ### C5: step is a no-op while waiting for a key -/

/-- C5: while the core is in the waiting-for-key state, a single
`run_for_instruction` call returns the state unchanged (no fetch, decode or
execute happens), and hence `run_for_instructions` — the batch-step loop —
also returns the state unchanged for any number of iterations. -/
theorem chip8_C5 (c : Core) (r : Nat) (rands : List Nat)
    (hw : c.is_waiting_for_keypress = true) :
    c.run_for_instruction r = .ok c ∧ c.run_for_instructions rands = .ok c := by
  have h1 : ∀ r0, c.run_for_instruction r0 = .ok c := by
    intro r0
    unfold Core.run_for_instruction
    rw [hw]
    rfl
  refine ⟨h1 r, ?_⟩
  induction rands with
  | nil => rfl
  | cons a l ih =>
      unfold Core.run_for_instructions at ih ⊢
      rw [List.foldlM_cons, h1 a]
      exact ih

def sampleC5 : Core :=
  { Core.init with
    is_waiting_for_keypress := true }

/-- Witness for C5 at a concrete waiting state. -/
theorem chip8_C5_witness :
    sampleC5.run_for_instruction 0 = .ok sampleC5 ∧
      sampleC5.run_for_instructions [0, 1, 2] = .ok sampleC5 :=
  chip8_C5 sampleC5 0 [0, 1, 2] rfl

/-! ### C9: timer ticking -/

/-- C9: one `tick_timers` call decrements each of the delay and the sound
timer by exactly 1 when that timer is above 0 and leaves a timer that is
already 0 at 0; each timer's new value depends only on that timer's own old
value (independence). -/
theorem chip8_C9 (c : Core) :
    ((0 < c.timer_delay → c.tick_timers.timer_delay = c.timer_delay - 1) ∧
      (c.timer_delay = 0 → c.tick_timers.timer_delay = 0)) ∧
    ((0 < c.timer_sound → c.tick_timers.timer_sound = c.timer_sound - 1) ∧
      (c.timer_sound = 0 → c.tick_timers.timer_sound = 0)) ∧
    (∀ c2 : Core, c.timer_delay = c2.timer_delay →
      c.tick_timers.timer_delay = c2.tick_timers.timer_delay) ∧
    (∀ c2 : Core, c.timer_sound = c2.timer_sound →
      c.tick_timers.timer_sound = c2.tick_timers.timer_sound) := by
  unfold Core.tick_timers
  refine ⟨⟨?_, ?_⟩, ⟨?_, ?_⟩, ?_, ?_⟩ <;> intro h <;> simp_all <;> omega

def sampleC9 : Core :=
  { Core.init with
    timer_delay := 5 }

/-- Witness for C9: delay timer 5 ticks to 4, sound timer 0 stays 0. -/
theorem chip8_C9_witness :
    sampleC9.tick_timers.timer_delay = 5 - 1 ∧ sampleC9.tick_timers.timer_sound = 0 :=
  ⟨((chip8_C9 sampleC9).1).1 (by decide), ((chip8_C9 sampleC9).2.1).2 rfl⟩

/-! ### C10: keypad update is latch-only outside the waiting state -/

/-- C10: when the core is not waiting for a key, `update_hexpad_bitmap`
replaces only the 16-bit keypad latch bitmap; the registers, pc, index
register, memory, stack, stack pointer, timers, framebuffer and wait state
are unchanged. -/
theorem chip8_C10 (c : Core) (b : Nat) (hb : b < 65536)
    (hw : c.is_waiting_for_keypress = false) :
    (c.update_hexpad_bitmap b).hexpad.hexpad_bitmap = b ∧
    (c.update_hexpad_bitmap b).v = c.v ∧
    (c.update_hexpad_bitmap b).pc = c.pc ∧
    (c.update_hexpad_bitmap b).i = c.i ∧
    (c.update_hexpad_bitmap b).main_memory = c.main_memory ∧
    (c.update_hexpad_bitmap b).sp = c.sp ∧
    (c.update_hexpad_bitmap b).stack = c.stack ∧
    (c.update_hexpad_bitmap b).timer_sound = c.timer_sound ∧
    (c.update_hexpad_bitmap b).timer_delay = c.timer_delay ∧
    (c.update_hexpad_bitmap b).fb = c.fb ∧
    (c.update_hexpad_bitmap b).is_waiting_for_keypress = false := by
  unfold Core.update_hexpad_bitmap
  rw [hw]
  simp [Hexpad.update_hexpad]

def sampleC10 : Core :=
  { Core.init with
    timer_delay := 7 }

/-- Witness for C10 at a concrete non-waiting state and bitmap `0x8001`. -/
theorem chip8_C10_witness :
    (sampleC10.update_hexpad_bitmap 0x8001).hexpad.hexpad_bitmap = 0x8001 ∧
    (sampleC10.update_hexpad_bitmap 0x8001).v = sampleC10.v ∧
    (sampleC10.update_hexpad_bitmap 0x8001).pc = sampleC10.pc ∧
    (sampleC10.update_hexpad_bitmap 0x8001).i = sampleC10.i ∧
    (sampleC10.update_hexpad_bitmap 0x8001).main_memory = sampleC10.main_memory ∧
    (sampleC10.update_hexpad_bitmap 0x8001).sp = sampleC10.sp ∧
    (sampleC10.update_hexpad_bitmap 0x8001).stack = sampleC10.stack ∧
    (sampleC10.update_hexpad_bitmap 0x8001).timer_sound = sampleC10.timer_sound ∧
    (sampleC10.update_hexpad_bitmap 0x8001).timer_delay = sampleC10.timer_delay ∧
    (sampleC10.update_hexpad_bitmap 0x8001).fb = sampleC10.fb ∧
    (sampleC10.update_hexpad_bitmap 0x8001).is_waiting_for_keypress = false :=
  chip8_C10 sampleC10 0x8001 (by decide) rfl

/-! ### C2: the 8XY5 / 8XY7 no-borrow flag -/

def sampleC2 : Core :=
  { Core.init with
    pc := 0x200
    v := ((List.replicate 16 0).set 1 10).set 2 3
    main_memory := ((List.replicate 4096 0).set 512 0x81).set 513 0x25 }

def sampleC2b : Core :=
  { Core.init with
    pc := 0x200
    v := ((List.replicate 16 0).set 1 3).set 2 10
    main_memory := ((List.replicate 4096 0).set 512 0x81).set 513 0x25 }

/-- C2 (code bug): executing `8125` (V1 := V1 − V2) with V1 = 10, V2 = 3
leaves V1 = 7 but VF = 0, although the claim (and the source's intent, "no
borrow occurred") requires VF = 1: the source computes
`bool no_borrow = res < 0` on the unsigned `uint32_t res`, which is always
false.  With V1 = 3, V2 = 10 the wrapped result 249 appears with VF = 0
(coincidentally agreeing with the claim). -/
theorem chip8_C2_code :
    (sampleC2.run_for_instruction 0).toOption.map
        (fun c => (c.v.getD 1 0, c.v.getD 15 0)) = some (7, 0) ∧
    (sampleC2b.run_for_instruction 0).toOption.map
        (fun c => (c.v.getD 1 0, c.v.getD 15 0)) = some (249, 0) := by
  decide

/-! ### C3: call / return symmetry -/

def sampleC3 : Core :=
  { Core.init with
    pc := 0x200
    main_memory :=
      (((List.replicate 4096 0).set 512 0x23).set 513 0x00).set 0x300 0x00 |>.set 0x301 0xEE }

/-- C3 (code bug): with `2300` (call 0x300) at 0x200 and `00EE` (return) at
0x300, the call correctly pushes the post-fetch pc 0x202 (sp becomes 1,
stack[0] = 0x202) and jumps to 0x300, but the return leaves pc = 0x302 — the
post-fetch pc of the return instruction — instead of restoring 0x202, and
overwrites the saved slot with 0x302: `stack_pop` stores
`stack[--sp] = this->pc` instead of loading pc from the stack. -/
theorem chip8_C3_code :
    (sampleC3.run_for_instruction 0).toOption.map
        (fun c => (c.pc, c.sp, c.stack.getD 0 0)) = some (0x300, 1, 0x202) ∧
    ((sampleC3.run_for_instruction 0) >>= (fun c1 => c1.run_for_instruction 0)).toOption.map
        (fun c => (c.pc, c.sp, c.stack.getD 0 0)) = some (0x302, 0, 0x302) ∧
    (0x302 : Nat) ≠ 0x202 := by
  decide

/-! ### C1: the DXYN sprite draw -/

def sampleC1 : Core :=
  { Core.init with
    pc := 0x200
    i := 0x300
    main_memory :=
      ((((List.replicate 4096 0).set 512 0xD1).set 513 0x21).set 514 0xD1).set 515 0x21
        |>.set 0x300 0x01 }

/-- C1 (code bug): executing `D121` (draw 1 row at (V1, V2)) with
V1 = V2 = 0, I = 0x300 and sprite byte `0x01` on an all-off framebuffer
leaves the target pixel (0, 0) off, turns on pixel (1, 2) — the raw register
index nibbles x = 1, y = 2 — and sets VF = 1 although no pixel transitioned
from on to off; the claim requires pixel (0, 0) to become on with VF = 0.
After a second identical draw, pixel (1, 2) is still on, although the claim
requires every touched pixel to be off after drawing the same sprite twice.
The source computes the wrapped coordinates `xp`, `yp` and the XOR operand
`new_pixel` but then executes `fb.set_pixel(x, y, true)`, accumulates
`collision` as `old_pixel != new_pixel` instead of an on-to-off test, and
runs the inner loop over `w < n` instead of the 8 sprite bits. -/
theorem chip8_C1_code :
    (sampleC1.run_for_instruction 0).toOption.map
        (fun c => (c.fb.pixel_status 0 0, c.fb.pixel_status 1 2, c.v.getD 15 0)) =
      some (false, true, 1) ∧
    ((sampleC1.run_for_instruction 0) >>= (fun c1 => c1.run_for_instruction 0)).toOption.map
        (fun c => (c.fb.pixel_status 0 0, c.fb.pixel_status 1 2, c.v.getD 15 0)) =
      some (false, true, 1) := by
  decide

/-! ### C7: the framebuffer is all-off at creation and after clear-screen -/

theorem getD_replicate_zero (n idx : Nat) : (List.replicate n (0 : Nat)).getD idx 0 = 0 := by
  rw [List.getD_eq_getElem?_getD, List.getElem?_replicate]
  split <;> rfl

theorem clear_pixel_status (fb : Framebuffer) (x y : Nat) :
    (fb.clear).pixel_status x y = false := by
  unfold Framebuffer.clear Framebuffer.pixel_status Framebuffer.PIXEL_OFF
  rw [getD_replicate_zero]
  rfl

theorem init_pixel_status (x y : Nat) : Core.init.fb.pixel_status x y = false := by
  unfold Core.init Framebuffer.pixel_status
  rw [getD_replicate_zero]
  rfl

theorem Core.mem_write_fb {c c' : Core} {a v : Nat} (h : c.mem_write a v = .ok c') :
    c'.fb = c.fb :=
  (Core.mem_write_frame h).2.2.2.2.2.2.2.1

theorem Core.mem_write_pc {c c' : Core} {a v : Nat} (h : c.mem_write a v = .ok c') :
    c'.pc = c.pc :=
  (Core.mem_write_frame h).2.1

theorem Core.mem_write_i {c c' : Core} {a v : Nat} (h : c.mem_write a v = .ok c') :
    c'.i = c.i :=
  (Core.mem_write_frame h).2.2.1

theorem ok_bind {α β : Type} (a : α) (f : α → Except StepError β) :
    (Except.ok a >>= f) = f a := rfl

theorem Core.fetch_ok {c : Core} (h : c.pc < 4096) :
    c.fetch = .ok (c.pc_set (c.pc + 1), c.main_memory.getD c.pc 0) := by
  unfold Core.fetch Core.pc_get Core.pc_set Core.mem_read
  simp only [ok_bind]
  rw [if_pos h]
  rfl

theorem Core.create_fb {rom : List Nat} {c : Core} (h : Core.create rom = .ok c) :
    c.fb = Core.init.fb := by
  unfold Core.create at h
  split at h
  · cases h
  · obtain ⟨c1, h1, h⟩ := bind_ok h
    obtain ⟨c2, h2, h⟩ := bind_ok h
    cases h
    have hf1 : c1.fb = Core.init.fb :=
      foldlM_except_inv (P := fun (s : Core) => s.fb = Core.init.fb)
        (fun a b a' ha hw => (Core.mem_write_fb hw).trans ha) _ _ _ rfl h1
    have hf2 : c2.fb = Core.init.fb :=
      foldlM_except_inv (P := fun (s : Core) => s.fb = Core.init.fb)
        (fun a b a' ha hw => (Core.mem_write_fb hw).trans ha) _ _ _ hf1 h2
    exact hf2

/-- C7: every ROM of at most 3584 bytes accepted by `create` yields a core
whose framebuffer pixels are all off, and executing the clear-screen
instruction `00E0` from any non-waiting state leaves every framebuffer pixel
off. -/
theorem chip8_C7 :
    (∀ (rom : List Nat) (c : Core), rom.length ≤ 3584 → Core.create rom = .ok c →
      ∀ x y, x < 60 → y < 60 → c.fb.pixel_status x y = false) ∧
    (∀ (c c' : Core) (r : Nat), c.is_waiting_for_keypress = false →
      c.main_memory.getD c.pc 0 = 0x00 →
      c.main_memory.getD ((c.pc + 1) &&& 0x0fff) 0 = 0xe0 →
      c.pc < 4096 →
      c.run_for_instruction r = .ok c' →
      ∀ x y, x < 60 → y < 60 → c'.fb.pixel_status x y = false) := by
  constructor
  · intro rom c _ hc x y _ _
    rw [Core.create_fb hc]
    exact init_pixel_status x y
  · intro c c' r hwait h0 h1 hpc h x y _ _
    unfold Core.run_for_instruction at h
    rw [hwait] at h
    simp only [Bool.false_eq_true, if_false] at h
    rw [Core.fetch_ok hpc] at h
    simp only [ok_bind] at h
    have hpc1 : (c.pc_set (c.pc + 1)).pc < 4096 := and_0xfff_lt _
    rw [Core.fetch_ok hpc1] at h
    simp only [ok_bind] at h
    have hmem1 : (c.pc_set (c.pc + 1)).main_memory = c.main_memory := rfl
    have hpc1v : (c.pc_set (c.pc + 1)).pc = (c.pc + 1) &&& 0x0fff := rfl
    rw [hmem1, hpc1v, h0, h1] at h
    have hinstr : ((0x00 : Nat) <<< 8) ||| 0xe0 = 0xe0 := by decide
    rw [hinstr] at h
    unfold Core.execute at h
    rw [if_pos rfl] at h
    cases h
    simp only [Framebuffer.clear, Framebuffer.pixel_status, Framebuffer.PIXEL_OFF]
    rw [getD_replicate_zero]
    rfl

def sampleC7b : Core :=
  { Core.init with
    pc := 0x200
    main_memory := ((List.replicate 4096 0).set 512 0x00).set 513 0xe0
    fb := { pixel_array := (List.replicate 3600 0).set 61 Framebuffer.PIXEL_ON } }

def c7core : Core :=
  match Core.create [] with
  | .ok c => c
  | .error _ => Core.init

def c7core2 : Core :=
  match sampleC7b.run_for_instruction 0 with
  | .ok c => c
  | .error _ => Core.init

/-- Witness for C7: the empty ROM gives an all-off framebuffer, and `00E0`
turns a dirty pixel (1, 1) off. -/
theorem chip8_C7_witness :
    c7core.fb.pixel_status 0 0 = false ∧ c7core2.fb.pixel_status 1 1 = false :=
  ⟨chip8_C7.1 [] c7core (by decide) (by rfl) 0 0 (by decide) (by decide),
   chip8_C7.2 sampleC7b c7core2 0 rfl (by decide) (by decide) (by decide) (by rfl)
     1 1 (by decide) (by decide)⟩

/-! ### C4: keypad wait resolution -/

theorem getD_set_self {l : List Nat} {idx a : Nat} (h : idx < l.length) :
    (l.set idx a).getD idx 0 = a := by
  rw [List.getD_eq_getElem?_getD, List.getElem?_set_self]
  · rfl
  · exact h

theorem testBit_log2_self {n : Nat} (hn : n ≠ 0) : n.testBit n.log2 = true := by
  have h1 : 2 ^ n.log2 ≤ n := Nat.log2_self_le hn
  have h2 : n < 2 ^ (n.log2 + 1) := Nat.lt_log2_self
  have hp : 0 < 2 ^ n.log2 := Nat.pos_pow_of_pos _ (by norm_num)
  have hdiv : n / 2 ^ n.log2 = 1 := by
    have hlo : 1 ≤ n / 2 ^ n.log2 := (Nat.le_div_iff_mul_le hp).2 (by omega)
    have hhi : n / 2 ^ n.log2 < 2 := by
      rw [Nat.div_lt_iff_lt_mul hp]
      rw [pow_succ] at h2
      omega
    omega
  rw [Nat.testBit_to_div_mod, hdiv]
  rfl

theorem testBit_le_log2 {n k : Nat} (h : n.testBit k = true) : k ≤ n.log2 := by
  by_contra hk
  push_neg at hk
  rcases Nat.eq_zero_or_pos n with h0 | h0
  · rw [h0, Nat.zero_testBit] at h
    cases h
  · have h2 : n < 2 ^ (n.log2 + 1) := Nat.lt_log2_self
    have h3 : (2 : Nat) ^ (n.log2 + 1) ≤ 2 ^ k := Nat.pow_le_pow_right (by norm_num) hk
    rw [Nat.testBit_lt_two_pow (by omega)] at h
    cases h

def sampleC4 : Core :=
  { Core.init with
    is_waiting_for_keypress := true
    keypress_index_register := 3 }

theorem log2_eq_of (n k : Nat) (hn : n ≠ 0) (h1 : 2 ^ k ≤ n) (h2 : n < 2 ^ (k + 1)) :
    Nat.log2 n = k := by
  have ha : k ≤ n.log2 := (Nat.le_log2 hn).2 h1
  have hb : n.log2 < k + 1 := (Nat.log2_lt hn).2 h2
  omega

/-- C4 counterexample: the core is waiting with target register 3 and old
bitmap 0; the update supplies bitmap `0x81`, whose newly-set bits are 0 and
7, so the claim requires register 3 to receive the lowest-index newly-set
bit 0 — but the code writes 7 (the highest-index newly-set bit, the
truncation of `std::log2(diff)`). -/
theorem chip8_C4_counterexample :
    (sampleC4.update_hexpad_bitmap 0x81).v.getD 3 0 = 7 ∧
    (((0x81 : Nat) ^^^ sampleC4.hexpad.bitmap) &&& 0x81) &&& (1 <<< 0) ≠ 0 ∧
    (sampleC4.update_hexpad_bitmap 0x81).v.getD 3 0 ≠ 0 := by
  have hlog : Nat.log2 129 = 7 :=
    log2_eq_of 129 7 (by norm_num) (by norm_num) (by norm_num)
  have key : sampleC4.update_hexpad_bitmap 0x81 =
      { sampleC4 with
        v := (List.replicate 16 0).set 3 (Nat.log2 129 % 256)
        hexpad := { hexpad_bitmap := 0x81 }
        is_waiting_for_keypress := false } := rfl
  rw [key, hlog]
  refine ⟨by decide, by decide, by decide⟩

/-- C4 (amended): for every state in WaitingForKey(targetRegister) with old
keypad bitmap B, a keypad update supplying bitmap B' whose set of newly-set
bits `diff = (B' XOR B) AND B'` is non-empty clears the waiting state and
writes the index of the HIGHEST-index newly-set bit (the truncated
`std::log2`, i.e. `Nat.log2 diff`) into targetRegister, before the latch
stores B'. -/
theorem chip8_C4 (c : Core) (b : Nat) (hb : b < 65536)
    (hw : c.is_waiting_for_keypress = true)
    (hlen : c.v.length = 16)
    (htr : c.keypress_index_register < 16)
    (hd : ((b ^^^ c.hexpad.bitmap) &&& b) ≠ 0) :
    (c.update_hexpad_bitmap b).is_waiting_for_keypress = false ∧
    (c.update_hexpad_bitmap b).hexpad.hexpad_bitmap = b ∧
    (c.update_hexpad_bitmap b).v.getD c.keypress_index_register 0 =
      Nat.log2 ((b ^^^ c.hexpad.bitmap) &&& b) ∧
    ((b ^^^ c.hexpad.bitmap) &&& b).testBit
      (Nat.log2 ((b ^^^ c.hexpad.bitmap) &&& b)) = true ∧
    (∀ k, ((b ^^^ c.hexpad.bitmap) &&& b).testBit k = true →
      k ≤ Nat.log2 ((b ^^^ c.hexpad.bitmap) &&& b)) := by
  have hdle : ((b ^^^ c.hexpad.bitmap) &&& b) ≤ b := Nat.and_le_right
  have hlog : Nat.log2 ((b ^^^ c.hexpad.bitmap) &&& b) < 16 := by
    rw [Nat.log2_lt hd]
    calc ((b ^^^ c.hexpad.bitmap) &&& b) ≤ b := hdle
    _ < 65536 := hb
  have hbne : (((b ^^^ c.hexpad.bitmap) &&& b) != 0) = true := by
    simp only [bne_iff_ne, ne_eq]
    exact hd
  unfold Core.update_hexpad_bitmap
  unfold Hexpad.bitmap at hbne hlog ⊢
  simp only [hw, hbne, Bool.true_and, if_true]
  refine ⟨rfl, rfl, ?_, testBit_log2_self hd, fun k hk => testBit_le_log2 hk⟩
  unfold Core.reg_write
  show (c.v.set c.keypress_index_register
      (Nat.log2 ((b ^^^ c.hexpad.hexpad_bitmap) &&& b) % 256)).getD
      c.keypress_index_register 0 = _
  rw [getD_set_self (by omega)]
  omega

/-- Witness for C4: waiting with target register 3 and old bitmap 0, the
update with bitmap `0x80` (bit 7 newly set) clears the wait and writes 7. -/
theorem chip8_C4_witness :
    (sampleC4.update_hexpad_bitmap 0x80).is_waiting_for_keypress = false ∧
    (sampleC4.update_hexpad_bitmap 0x80).hexpad.hexpad_bitmap = 0x80 ∧
    (sampleC4.update_hexpad_bitmap 0x80).v.getD 3 0 =
      Nat.log2 ((0x80 ^^^ sampleC4.hexpad.bitmap) &&& 0x80) := by
  have h := chip8_C4 sampleC4 0x80 (by decide) rfl (by decide) (by decide) (by decide)
  exact ⟨h.1, h.2.1, h.2.2.1⟩

/-! ### C6: unmatched instruction words are fatal decode errors -/

theorem known_opcode_top0 {w : Nat} (h0 : w >>> 12 = 0)
    (he0 : w &&& 0x0fff ≠ 0x0e0) (hee : w &&& 0x0fff ≠ 0x0ee) :
    known_opcode w = false := by
  have hwlt : w < 4096 := by
    rw [Nat.shiftRight_eq_div_pow] at h0
    norm_num at h0
    omega
  have hmask : w &&& 0x0fff = w := by
    rw [and_0xfff_eq_mod]
    omega
  rw [hmask] at he0 hee
  simp [known_opcode, h0, he0, hee]

theorem known_opcode_of_top17 {w : Nat} (h1 : 1 ≤ w >>> 12) (h7 : w >>> 12 ≤ 7) :
    known_opcode w = true := by
  unfold known_opcode
  simp [h1, h7]

theorem known_opcode_of_top9d {w k : Nat} (h : w >>> 12 = k)
    (hks : k = 9 ∨ k = 0xa ∨ k = 0xb ∨ k = 0xc ∨ k = 0xd) :
    known_opcode w = true := by
  unfold known_opcode
  rcases hks with rfl | rfl | rfl | rfl | rfl <;> simp [h]

theorem known_opcode_of_8 {w : Nat} (h : w >>> 12 = 8)
    (hn : w &&& 0xf ≤ 7 ∨ w &&& 0xf = 0xe) :
    known_opcode w = true := by
  unfold known_opcode
  rcases hn with hn | hn <;> simp [h, hn]

theorem known_opcode_of_e {w : Nat} (h : w >>> 12 = 0xe)
    (hn : w &&& 0xff = 0x9e ∨ w &&& 0xff = 0xa1) :
    known_opcode w = true := by
  unfold known_opcode
  rcases hn with hn | hn <;> simp [h, hn]

theorem known_opcode_of_f {w : Nat} (h : w >>> 12 = 0xf)
    (hn : w &&& 0xff = 0x07 ∨ w &&& 0xff = 0x0a ∨ w &&& 0xff = 0x15 ∨
      w &&& 0xff = 0x18 ∨ w &&& 0xff = 0x1e ∨ w &&& 0xff = 0x29 ∨
      w &&& 0xff = 0x33 ∨ w &&& 0xff = 0x55 ∨ w &&& 0xff = 0x65) :
    known_opcode w = true := by
  unfold known_opcode
  rcases hn with hn | hn | hn | hn | hn | hn | hn | hn | hn <;> simp [h, hn]

theorem Core.execute_invalid (c : Core) (w r : Nat) (hw : w < 65536)
    (hk : known_opcode w = false) :
    c.execute w r = .error (.invalidInstr ((c.pc : Int) - 2) w) := by
  have h12 : w >>> 12 < 16 := by
    rw [Nat.shiftRight_eq_div_pow]
    norm_num
    omega
  have hA0 : ¬ w = 0xe0 := by
    intro h
    rw [h] at hk
    exact absurd hk (by decide)
  have hA1 : ¬ w = 0xee := by
    intro h
    rw [h] at hk
    exact absurd hk (by decide)
  obtain ⟨T, hT⟩ : ∃ T, w >>> 12 = T := ⟨_, rfl⟩
  unfold Core.execute Core.pc_get
  rw [hT] at h12
  simp only [hT]
  interval_cases T
  · rw [if_neg hA0, if_neg hA1, if_pos rfl]
  · exact Bool.noConfusion ((known_opcode_of_top17 (by omega) (by omega)).symm.trans hk)
  · exact Bool.noConfusion ((known_opcode_of_top17 (by omega) (by omega)).symm.trans hk)
  · exact Bool.noConfusion ((known_opcode_of_top17 (by omega) (by omega)).symm.trans hk)
  · exact Bool.noConfusion ((known_opcode_of_top17 (by omega) (by omega)).symm.trans hk)
  · exact Bool.noConfusion ((known_opcode_of_top17 (by omega) (by omega)).symm.trans hk)
  · exact Bool.noConfusion ((known_opcode_of_top17 (by omega) (by omega)).symm.trans hk)
  · exact Bool.noConfusion ((known_opcode_of_top17 (by omega) (by omega)).symm.trans hk)
  · rw [if_neg hA0, if_neg hA1, if_neg (by decide : ¬(8 : Nat) = 0),
      if_neg (by decide : ¬(8 : Nat) = 1), if_neg (by decide : ¬(8 : Nat) = 2),
      if_neg (by decide : ¬(8 : Nat) = 3), if_neg (by decide : ¬(8 : Nat) = 4),
      if_neg (by decide : ¬(8 : Nat) = 5), if_neg (by decide : ¬(8 : Nat) = 6),
      if_neg (by decide : ¬(8 : Nat) = 7), if_pos rfl]
    split_ifs <;>
      first
        | rfl
        | exact Bool.noConfusion ((known_opcode_of_8 hT (by omega)).symm.trans hk)
  · exact Bool.noConfusion ((known_opcode_of_top9d hT (by norm_num)).symm.trans hk)
  · exact Bool.noConfusion ((known_opcode_of_top9d hT (by norm_num)).symm.trans hk)
  · exact Bool.noConfusion ((known_opcode_of_top9d hT (by norm_num)).symm.trans hk)
  · exact Bool.noConfusion ((known_opcode_of_top9d hT (by norm_num)).symm.trans hk)
  · exact Bool.noConfusion ((known_opcode_of_top9d hT (by norm_num)).symm.trans hk)
  · rw [if_neg hA0, if_neg hA1, if_neg (by decide : ¬(14 : Nat) = 0),
      if_neg (by decide : ¬(14 : Nat) = 1), if_neg (by decide : ¬(14 : Nat) = 2),
      if_neg (by decide : ¬(14 : Nat) = 3), if_neg (by decide : ¬(14 : Nat) = 4),
      if_neg (by decide : ¬(14 : Nat) = 5), if_neg (by decide : ¬(14 : Nat) = 6),
      if_neg (by decide : ¬(14 : Nat) = 7), if_neg (by decide : ¬(14 : Nat) = 8),
      if_neg (by decide : ¬(14 : Nat) = 9), if_neg (by decide : ¬(14 : Nat) = 10),
      if_neg (by decide : ¬(14 : Nat) = 11), if_neg (by decide : ¬(14 : Nat) = 12),
      if_neg (by decide : ¬(14 : Nat) = 13), if_pos rfl]
    split_ifs <;>
      first
        | rfl
        | exact Bool.noConfusion ((known_opcode_of_e hT (by omega)).symm.trans hk)
  · rw [if_neg hA0, if_neg hA1, if_neg (by decide : ¬(15 : Nat) = 0),
      if_neg (by decide : ¬(15 : Nat) = 1), if_neg (by decide : ¬(15 : Nat) = 2),
      if_neg (by decide : ¬(15 : Nat) = 3), if_neg (by decide : ¬(15 : Nat) = 4),
      if_neg (by decide : ¬(15 : Nat) = 5), if_neg (by decide : ¬(15 : Nat) = 6),
      if_neg (by decide : ¬(15 : Nat) = 7), if_neg (by decide : ¬(15 : Nat) = 8),
      if_neg (by decide : ¬(15 : Nat) = 9), if_neg (by decide : ¬(15 : Nat) = 10),
      if_neg (by decide : ¬(15 : Nat) = 11), if_neg (by decide : ¬(15 : Nat) = 12),
      if_neg (by decide : ¬(15 : Nat) = 13), if_neg (by decide : ¬(15 : Nat) = 14),
      if_pos rfl]
    split_ifs <;>
      first
        | rfl
        | exact Bool.noConfusion ((known_opcode_of_f hT (by omega)).symm.trans hk)

/-- C6: if the fetched instruction word has top nibble 0 and low 12 bits
neither 0x0E0 nor 0x0EE, or matches no known opcode pattern (per the decode
dispatch of the spec: full-word clear/return, top-nibble families, with
secondary dispatch only in the arithmetic/shift, key-test and misc groups),
then `run_for_instruction` reports a fatal decode error carrying the
faulting pc and the raw word, and produces no successor state. -/
theorem chip8_C6 (c : Core) (r hi lo : Nat)
    (hwait : c.is_waiting_for_keypress = false)
    (hpc : c.pc < 4096)
    (hhi : c.main_memory.getD c.pc 0 = hi)
    (hlo : c.main_memory.getD ((c.pc + 1) &&& 0x0fff) 0 = lo)
    (hhib : hi < 256) (hlob : lo < 256)
    (hbad : (((hi <<< 8) ||| lo) >>> 12 = 0 ∧ ((hi <<< 8) ||| lo) &&& 0x0fff ≠ 0x0e0 ∧
        ((hi <<< 8) ||| lo) &&& 0x0fff ≠ 0x0ee) ∨
      known_opcode ((hi <<< 8) ||| lo) = false) :
    c.run_for_instruction r =
      .error (.invalidInstr
        (((((c.pc + 1) &&& 0x0fff) + 1) &&& 0x0fff : Nat) - 2 : Int)
        ((hi <<< 8) ||| lo)) := by
  have hsl : hi <<< 8 < 65536 := by
    rw [Nat.shiftLeft_eq]
    norm_num
    omega
  have hw16 : (hi <<< 8) ||| lo < 65536 := by
    have h := Nat.bitwise_lt_two_pow (x := hi <<< 8) (y := lo) (n := 16) (f := or)
      (by norm_num; omega) (by norm_num; omega)
    norm_num at h
    exact h
  have hkf : known_opcode ((hi <<< 8) ||| lo) = false := by
    rcases hbad with ⟨h0, he0, hee⟩ | hk
    · exact known_opcode_top0 h0 he0 hee
    · exact hk
  unfold Core.run_for_instruction
  rw [hwait]
  simp only [Bool.false_eq_true, if_false]
  rw [Core.fetch_ok hpc]
  simp only [ok_bind]
  rw [Core.fetch_ok (show (c.pc_set (c.pc + 1)).pc < 4096 from and_0xfff_lt _)]
  simp only [ok_bind]
  have heq2 : (c.pc_set (c.pc + 1)).main_memory.getD ((c.pc_set (c.pc + 1)).pc) 0 =
      c.main_memory.getD ((c.pc + 1) &&& 0x0fff) 0 := rfl
  rw [heq2, hhi, hlo]
  exact Core.execute_invalid _ _ _ hw16 hkf

def sampleC6inv : Core :=
  { Core.init with
    pc := 0x200
    main_memory := ((List.replicate 4096 0).set 512 0x01).set 513 0x23 }

/-- Witness for C6: the word `0123` (top nibble 0, low 12 bits 0x123) at
pc = 0x200 produces the fatal decode error reporting pc 0x200 and the word. -/
theorem chip8_C6_witness :
    sampleC6inv.run_for_instruction 0 = .error (.invalidInstr 512 0x123) := by
  have h := chip8_C6 sampleC6inv 0 0x01 0x23 rfl (by decide) (by decide) (by decide)
    (by decide) (by decide) (Or.inl ⟨by decide, by decide, by decide⟩)
  rw [h]
  decide

/-! ### C8: pc and i always fit in 12 bits -/

theorem ite_skip_pc {cond : Prop} [Decidable cond] {c : Core} (hc : c.pc < 4096) :
    (if cond then c.skip_instr else c).pc < 4096 := by
  split
  · exact and_0xfff_lt _
  · exact hc

theorem ite_skip_i {cond : Prop} [Decidable cond] {c : Core} :
    (if cond then c.skip_instr else c).i = c.i := by
  split <;> rfl

theorem dxyn_row_pc_i (row vx vy x y h n : Nat) (acc : Core × Bool) :
    (Core.dxyn_row row vx vy x y h n acc).1.pc = acc.1.pc ∧
    (Core.dxyn_row row vx vy x y h n acc).1.i = acc.1.i := by
  unfold Core.dxyn_row
  apply foldl_inv (P := fun (a : Core × Bool) => a.1.pc = acc.1.pc ∧ a.1.i = acc.1.i)
  · intro a b ha
    exact ⟨ha.1, ha.2⟩
  · exact ⟨rfl, rfl⟩

theorem dxyn_loop_pc_i {i vx vy x y n : Nat} {c : Core} {rb : Core × Bool}
    (h : Core.dxyn_loop i vx vy x y n c = .ok rb) :
    rb.1.pc = c.pc ∧ rb.1.i = c.i := by
  unfold Core.dxyn_loop at h
  apply foldlM_except_inv (P := fun (a : Core × Bool) => a.1.pc = c.pc ∧ a.1.i = c.i) ?_ _ _ _ ⟨rfl, rfl⟩ h
  intro a b a2 ha hstep
  obtain ⟨row, h1, h2⟩ := bind_ok hstep
  injection h2 with h2
  subst h2
  have hr := dxyn_row_pc_i row vx vy x y b n a
  exact ⟨hr.1.trans ha.1, hr.2.trans ha.2⟩

theorem Core.execute_pc_i {c c' : Core} {w r : Nat}
    (hc : c.pc < 4096 ∧ c.i < 4096) (h : c.execute w r = .ok c') :
    c'.pc < 4096 ∧ c'.i < 4096 := by
  unfold Core.execute at h
  by_cases he0 : w = 0x00e0
  · rw [if_pos he0] at h
    injection h with h
    subst h
    exact ⟨hc.1, hc.2⟩
  rw [if_neg he0] at h
  by_cases hee : w = 0x00ee
  · rw [if_pos hee] at h
    have hf := Core.stack_pop_frame h
    exact ⟨by rw [hf.1]; exact hc.1, by rw [hf.2.1]; exact hc.2⟩
  rw [if_neg hee] at h
  obtain ⟨T, hT⟩ : ∃ T, w >>> 12 = T := ⟨_, rfl⟩
  simp only [hT] at h
  by_cases ht0 : T = 0
  · rw [if_pos ht0] at h
    exact Except.noConfusion h
  rw [if_neg ht0] at h
  by_cases ht1 : T = 1
  · rw [if_pos ht1] at h
    injection h with h
    subst h
    exact ⟨and_0xfff_lt _, hc.2⟩
  rw [if_neg ht1] at h
  by_cases ht2 : T = 2
  · rw [if_pos ht2] at h
    obtain ⟨c1, h1, h⟩ := bind_ok h
    injection h with h
    subst h
    have hf := Core.stack_push_frame h1
    refine ⟨and_0xfff_lt _, ?_⟩
    show c1.i < 4096
    rw [hf.2.1]
    exact hc.2
  rw [if_neg ht2] at h
  by_cases ht3 : T = 3
  · rw [if_pos ht3] at h
    injection h with h
    subst h
    exact ⟨ite_skip_pc hc.1, by rw [ite_skip_i]; exact hc.2⟩
  rw [if_neg ht3] at h
  by_cases ht4 : T = 4
  · rw [if_pos ht4] at h
    injection h with h
    subst h
    exact ⟨ite_skip_pc hc.1, by rw [ite_skip_i]; exact hc.2⟩
  rw [if_neg ht4] at h
  by_cases ht5 : T = 5
  · rw [if_pos ht5] at h
    injection h with h
    subst h
    exact ⟨ite_skip_pc hc.1, by rw [ite_skip_i]; exact hc.2⟩
  rw [if_neg ht5] at h
  by_cases ht6 : T = 6
  · rw [if_pos ht6] at h
    injection h with h
    subst h
    exact ⟨hc.1, hc.2⟩
  rw [if_neg ht6] at h
  by_cases ht7 : T = 7
  · rw [if_pos ht7] at h
    injection h with h
    subst h
    exact ⟨hc.1, hc.2⟩
  rw [if_neg ht7] at h
  by_cases ht8 : T = 8
  · rw [if_pos ht8] at h
    split_ifs at h <;>
      first
        | exact Except.noConfusion h
        | (injection h with h; subst h; exact ⟨hc.1, hc.2⟩)
  rw [if_neg ht8] at h
  by_cases ht9 : T = 9
  · rw [if_pos ht9] at h
    injection h with h
    subst h
    exact ⟨ite_skip_pc hc.1, by rw [ite_skip_i]; exact hc.2⟩
  rw [if_neg ht9] at h
  by_cases hta : T = 0xa
  · rw [if_pos hta] at h
    injection h with h
    subst h
    exact ⟨hc.1, and_0xfff_lt _⟩
  rw [if_neg hta] at h
  by_cases htb : T = 0xb
  · rw [if_pos htb] at h
    injection h with h
    subst h
    exact ⟨and_0xfff_lt _, hc.2⟩
  rw [if_neg htb] at h
  by_cases htc : T = 0xc
  · rw [if_pos htc] at h
    injection h with h
    subst h
    exact ⟨hc.1, hc.2⟩
  rw [if_neg htc] at h
  by_cases htd : T = 0xd
  · rw [if_pos htd] at h
    obtain ⟨rb, h1, h⟩ := bind_ok h
    injection h with h
    subst h
    have hd := dxyn_loop_pc_i h1
    exact ⟨by show rb.1.pc < 4096; rw [hd.1]; exact hc.1,
      by show rb.1.i < 4096; rw [hd.2]; exact hc.2⟩
  rw [if_neg htd] at h
  by_cases hte : T = 0xe
  · rw [if_pos hte] at h
    split_ifs at h <;>
      first
        | exact Except.noConfusion h
        | (injection h with h; subst h; exact ⟨and_0xfff_lt _, hc.2⟩)
        | (injection h with h; subst h; exact ⟨hc.1, hc.2⟩)
  rw [if_neg hte] at h
  by_cases htf : T = 0xf
  · rw [if_pos htf] at h
    split_ifs at h <;>
      first
        | exact Except.noConfusion h
        | (injection h with h; subst h; exact ⟨hc.1, hc.2⟩)
        | (injection h with h; subst h; exact ⟨hc.1, and_0xfff_lt _⟩)
        | (obtain ⟨c1, h1, h⟩ := bind_ok h
           obtain ⟨c2, h2, h⟩ := bind_ok h
           obtain ⟨c3, h3, h⟩ := bind_ok h
           injection h with h
           subst h
           refine ⟨?_, ?_⟩
           · rw [Core.mem_write_pc h3, Core.mem_write_pc h2, Core.mem_write_pc h1]
             exact hc.1
           · rw [Core.mem_write_i h3, Core.mem_write_i h2, Core.mem_write_i h1]
             exact hc.2)
        | (apply foldlM_except_inv (P := fun (s : Core) => s.pc < 4096 ∧ s.i < 4096)
              ?_ _ _ _ hc h
           intro a b a2 ha hw2
           exact ⟨by rw [Core.mem_write_pc hw2]; exact ha.1,
             by rw [Core.mem_write_i hw2]; exact ha.2⟩)
        | (apply foldlM_except_inv (P := fun (s : Core) => s.pc < 4096 ∧ s.i < 4096)
              ?_ _ _ _ hc h
           intro a b a2 ha hstep
           obtain ⟨bv, hb1, hb2⟩ := bind_ok hstep
           injection hb2 with hb2
           subst hb2
           exact ⟨ha.1, ha.2⟩)
  rw [if_neg htf] at h
  exact Except.noConfusion h

theorem Core.run_for_instruction_pc_i {c c' : Core} {r : Nat}
    (hc : c.pc < 4096 ∧ c.i < 4096)
    (h : c.run_for_instruction r = .ok c') : c'.pc < 4096 ∧ c'.i < 4096 := by
  unfold Core.run_for_instruction at h
  split at h
  · injection h with h
    subst h
    exact hc
  · obtain ⟨p1, h1, h⟩ := bind_ok h
    obtain ⟨c1, b1⟩ := p1
    have hf1 : c1 = c.pc_set (c.pc + 1) := Core.fetch_fst h1
    obtain ⟨p2, h2, h⟩ := bind_ok h
    obtain ⟨c2, b2⟩ := p2
    have hf2 : c2 = c1.pc_set (c1.pc + 1) := Core.fetch_fst h2
    apply Core.execute_pc_i ?_ h
    subst hf2 hf1
    exact ⟨and_0xfff_lt _, hc.2⟩

theorem update_hexpad_bitmap_pc_i (c : Core) (b : Nat) :
    (c.update_hexpad_bitmap b).pc = c.pc ∧ (c.update_hexpad_bitmap b).i = c.i := by
  simp only [Core.update_hexpad_bitmap]
  split <;> exact ⟨rfl, rfl⟩

theorem applyOp_pc_i {c c' : Core} {op : DriverOp}
    (hc : c.pc < 4096 ∧ c.i < 4096) (h : applyOp c op = .ok c') :
    c'.pc < 4096 ∧ c'.i < 4096 := by
  cases op with
  | step r => exact Core.run_for_instruction_pc_i hc h
  | tick =>
      injection h with h
      subst h
      exact hc
  | keypad b =>
      injection h with h
      subst h
      have hu := update_hexpad_bitmap_pc_i c (b % 65536)
      exact ⟨by rw [hu.1]; exact hc.1, by rw [hu.2]; exact hc.2⟩

theorem Core.create_pc_i {rom : List Nat} {c : Core} (h : Core.create rom = .ok c) :
    c.pc < 4096 ∧ c.i < 4096 := by
  unfold Core.create at h
  split at h
  · cases h
  · obtain ⟨c1, h1, h⟩ := bind_ok h
    obtain ⟨c2, h2, h⟩ := bind_ok h
    injection h with h
    subst h
    refine ⟨by norm_num, ?_⟩
    show c2.i < 4096
    have hi1 : c1.i = Core.init.i :=
      foldlM_except_inv (P := fun (s : Core) => s.i = Core.init.i)
        (fun a b a2 ha hw => (Core.mem_write_i hw).trans ha) _ _ _ rfl h1
    have hi2 : c2.i = Core.init.i :=
      foldlM_except_inv (P := fun (s : Core) => s.i = Core.init.i)
        (fun a b a2 ha hw => (Core.mem_write_i hw).trans ha) _ _ _ hi1 h2
    rw [hi2]
    norm_num [Core.init]

/-- C8: in every state reachable from `create` by any sequence of
instruction steps (with any `std::rand()` results), timer ticks and keypad
updates, the program counter and the index register satisfy
`value == value AND 0x0FFF` — they fit in 12 bits after every write. -/
theorem chip8_C8 (rom : List Nat) (c0 : Core) (ops : List DriverOp) (c : Core)
    (hcreate : Core.create rom = .ok c0) (hops : runOps c0 ops = .ok c) :
    c.pc &&& 0x0fff = c.pc ∧ c.i &&& 0x0fff = c.i := by
  have h0 := Core.create_pc_i hcreate
  unfold runOps at hops
  have hinv : c.pc < 4096 ∧ c.i < 4096 :=
    foldlM_except_inv (P := fun (s : Core) => s.pc < 4096 ∧ s.i < 4096)
      (fun a b a2 ha hstep => applyOp_pc_i ha hstep) _ _ _ h0 hops
  constructor <;> (rw [and_0xfff_eq_mod]; omega)

def c8core : Core :=
  match Core.create [] with
  | .ok c => c
  | .error _ => Core.init

def c8core2 : Core :=
  match runOps c8core [DriverOp.tick, DriverOp.keypad 3] with
  | .ok c => c
  | .error _ => Core.init

/-- Witness for C8: the state created from the empty ROM, after a timer tick
and a keypad update. -/
theorem chip8_C8_witness :
    c8core2.pc &&& 0x0fff = c8core2.pc ∧ c8core2.i &&& 0x0fff = c8core2.i :=
  chip8_C8 [] c8core [DriverOp.tick, DriverOp.keypad 3] c8core2 (by rfl) (by rfl)
